import Mathlib

/-!
Verification of the tunnel-establishment and port-forwarding core of the
terraform-provider-mysql repository, shallowly embedded in Lean.

Errors are modelled as lists of cause strings: an aggregated error
(hashicorp/go-multierror) is the list of its causes, and a Go value of
type error is an Option Err (none = nil).
-/

namespace TFMysql

/-- A Go error, represented by the list of its causes
(a plain error has one cause, a go-multierror has several). -/
abbrev Err := List String

/-- Models multierror.Append(errors, fmt.Errorf(msg)) with the accumulator
passed as first argument: the causes of the accumulator followed by msg. -/
def appendCause (e : Option Err) (msg : String) : Option Err :=
  some (e.getD [] ++ [msg])

/-- Ambient facts of the machine the provider runs on: the current OS user
(os/user.Current), the home directory (os.UserHomeDir, with "" modelling
failure), which paths exist on disk (os.Stat succeeding), and whether
session.NewSessionWithOptions yields a non-nil AWS session. -/
structure Env where
  currentUser : String
  homeDir : String
  fileExists : String → Bool
  awsSessionOk : Bool

/-- Models defaultSSHKeyPath: path.Join(home, ".ssh", "id_rsa"), or ""
when the home directory cannot be determined. -/
def defaultSSHKeyPath (env : Env) : String :=
  if env.homeDir = "" then "" else env.homeDir ++ ("/.ssh/id_rsa")

/-- Raw aws_ssm_session_manager_client_config block as it reaches
ParseSessionConfig from the schema layer. String fields use "" for an
unset value (the source checks ok && v != ""); the bool flag is an
Option because the source's type assertion confMap[...](bool) can fail
only when no boolean value is present. -/
structure BrokerBlock where
  ec2InstanceId : String
  rdsEndpoint : String
  useRemotePortForward : Option Bool
  sshUser : String
  sshKeyPath : String
  awsProfile : String
  region : String
deriving DecidableEq, Repr

/-- Raw port_forward_client_config block as it reaches ParsePFConfigMap. -/
structure DirectBlock where
  remoteHost : String
  dbEndpoint : String
  sshUser : String
  sshKeyPath : String
deriving DecidableEq, Repr

/-- The pfConf map[string]string built by ParseSessionConfig /
ParsePFConfigMap, with one Option field per possible key
(none = key absent from the map). -/
structure PFMap where
  remote_endpoint : Option String
  db_endpoint : Option String
  use_remote_port_forward : Option String
  ssh_user : Option String
  ssh_key_path : Option String
deriving DecidableEq, Repr

/-- Models len(confMap) == 0 for the pfConf map. -/
def PFMap.isEmpty (m : PFMap) : Bool :=
  m.remote_endpoint = none && m.db_endpoint = none &&
  m.use_remote_port_forward = none && m.ssh_user = none && m.ssh_key_path = none

/-- Models the Go idiom v, ok := m[k]; ok && v != "" as an Option:
some v exactly when the key is present with a non-empty value. -/
def mapGetNonempty (v : Option String) : Option String :=
  match v with
  | some s => if s = "" then none else some s
  | none => none

/-- The port_forward package's sessionConfig: instance id plus the AWS
session handle (modelled by whether it is non-nil). -/
structure SessionConf where
  instanceID : String
  sessionOk : Bool
deriving DecidableEq, Repr

/-- Models (conf sessionConfig) validate() from port_forward:
aggregates a cause for an empty instance id and a cause for a nil AWS
session, returning the aggregate when non-empty. -/
def sessionConfValidate (c : SessionConf) : Option Err :=
  let e1 : Option Err :=
    if c.instanceID = "" then appendCause none ("not set ec2_instance_id") else none
  let e2 : Option Err :=
    if !c.sessionOk then appendCause e1 ("AWS configure is not a valid") else e1
  e2

/-- Models port_forward.ParseSessionConfig: absent block yields
(nil, nil, nil); otherwise builds the sessionConfig and the pfConf map.
remote_endpoint is always set to instanceID:22; use_remote_port_forward
is FormatBool of the flag when the bool assertion succeeds; the ssh
fields are added to the map only when the serialized flag equals
"false". The malformed-list error of the schema layer is absorbed by
the Option. -/
def ParseSessionConfig (env : Env) (block : Option BrokerBlock) :
    Except Err (Option (SessionConf × PFMap)) :=
  match block with
  | none => .ok none
  | some b =>
    let instanceID := if b.ec2InstanceId = "" then "" else b.ec2InstanceId
    let sessionConf : SessionConf := ⟨instanceID, env.awsSessionOk⟩
    match sessionConfValidate sessionConf with
    | some e => .error e
    | none =>
      let m0 : PFMap :=
        ⟨some (instanceID ++ (":22")), none, none, none, none⟩
      let dbep := if b.rdsEndpoint = "" then none else some b.rdsEndpoint
      let m1 := { m0 with db_endpoint := dbep }
      let flag := b.useRemotePortForward.map (fun v => if v then "true" else "false")
      let m2 := { m1 with use_remote_port_forward := flag }
      let su := some (if b.sshUser = "" then env.currentUser else b.sshUser)
      let sk := some (if b.sshKeyPath = "" then defaultSSHKeyPath env else b.sshKeyPath)
      let m3 :=
        if m2.use_remote_port_forward = some ("false") then
          { m2 with ssh_user := su, ssh_key_path := sk }
        else m2
      .ok (some (sessionConf, m3))

/-- Models ParsePFConfigMap: absent block yields (nil, nil); otherwise
remote_endpoint is remoteHost:22 when the host is non-empty, db_endpoint
is copied when non-empty, and ssh_user / ssh_key_path are always set,
defaulting to the current OS user and defaultSSHKeyPath. -/
def ParsePFConfigMap (env : Env) (block : Option DirectBlock) :
    Except Err (Option PFMap) :=
  match block with
  | none => .ok none
  | some b =>
    let re := if b.remoteHost = "" then none else some (b.remoteHost ++ (":22"))
    let dbep := if b.dbEndpoint = "" then none else some b.dbEndpoint
    let su := some (if b.sshUser = "" then env.currentUser else b.sshUser)
    let sk := some (if b.sshKeyPath = "" then defaultSSHKeyPath env else b.sshKeyPath)
    let m : PFMap := ⟨re, dbep, none, su, sk⟩
    .ok (some m)

/-- The resolved portFowardConfig struct (name kept from the source,
including its spelling). -/
structure PortFowardConfig where
  sshUser : String
  keyPath : String
  localPort : Nat
  remoteEndpoint : String
  dbEndpoint : String
  useRemotePortForward : Bool
deriving DecidableEq, Repr

/-- Models (pfConf portFowardConfig) validate(): aggregates a cause for
an empty ssh user and a cause for a non-existent key file. -/
def pfValidate (env : Env) (c : PortFowardConfig) : Option Err :=
  let e1 : Option Err :=
    if c.sshUser = "" then appendCause none ("not set ssh_user") else none
  let e2 : Option Err :=
    if !env.fileExists c.keyPath then
      appendCause e1 (("ssh_key_path: ") ++ c.keyPath ++ (" is not exist"))
    else e1
  e2

/-- Models ParsePFConfig: nil map yields nil config; an empty map is a
format error; useRemotePortForward is set exactly when the
use_remote_port_forward key is present with a non-empty value, and in
that case the config is returned at once, skipping the ssh fields and
validation; otherwise ssh user and key path are filled from the map or
their defaults and the config is validated. -/
def ParsePFConfig (env : Env) (confMap : Option PFMap) (localPort : Nat) :
    Except Err (Option PortFowardConfig) :=
  match confMap with
  | none => .ok none
  | some m =>
    if m.isEmpty then .error [("parseSSHConfig format validate")]
    else
      let conf1 : PortFowardConfig :=
        { sshUser := "", keyPath := "", localPort := localPort,
          remoteEndpoint := (mapGetNonempty m.remote_endpoint).getD "",
          dbEndpoint := (mapGetNonempty m.db_endpoint).getD "",
          useRemotePortForward := (mapGetNonempty m.use_remote_port_forward).isSome }
      if conf1.useRemotePortForward then .ok (some conf1)
      else
        let u := (mapGetNonempty m.ssh_user).getD env.currentUser
        let k := (mapGetNonempty m.ssh_key_path).getD (defaultSSHKeyPath env)
        let conf2 := { conf1 with sshUser := u, keyPath := k }
        match pfValidate env conf2 with
        | some e => .error e
        | none => .ok (some conf2)

/-- The raw provider configuration relevant to tunnel resolution: at
most one broker block and at most one direct-SSH block. -/
structure RawConfig where
  broker : Option BrokerBlock
  direct : Option DirectBlock
deriving Repr

/-- Models the config-resolution part of providerConfigure: run
ParseSessionConfig; when it yields no map, fall back to
ParsePFConfigMap; finally run ParsePFConfig on the obtained map. -/
def resolveConfig (env : Env) (raw : RawConfig) (localPort : Nat) :
    Except Err (Option SessionConf × Option PortFowardConfig) := do
  let r ← ParseSessionConfig env raw.broker
  let m ← match r with
    | some p => pure (some p.2)
    | none => ParsePFConfigMap env raw.direct
  let pf ← ParsePFConfig env m localPort
  pure (r.map Prod.fst, pf)

/-- The three forwarding strategies of the spec's ForwardingPlan. -/
inductive Strategy
  | directSSH
  | brokerRemoteForward
  | brokerSSHCarrier
deriving DecidableEq, Repr

/-- Strategy dispatch as performed by port_forward.Connect and
sessionConfig.connect: nil pfConf means no tunnel; nil sessionConf with
a pfConf means a direct ssh.Dial; otherwise the useRemotePortForward
field selects the native remote forward or the SSH-over-broker carrier. -/
def resolvedStrategy :
    Option SessionConf × Option PortFowardConfig → Option Strategy
  | (_, none) => none
  | (some _, some pf) =>
    some (if pf.useRemotePortForward then .brokerRemoteForward else .brokerSSHCarrier)
  | (none, some _) => some .directSSH

/-- Models the network argument of the listener bind in PortForward and
portForward: net.Listen("tcp", ...). -/
def listenNetwork : String := "tcp"

/-- Models the address argument of the listener bind in PortForward and
portForward: fmt.Sprintf(":%d", localPort). -/
def listenAddress (localPort : Nat) : String := ":" ++ toString localPort

/-- Models strings.Split(s, sep) for a one-character separator, over the
character list of the string: n separators yield n+1 pieces. -/
def goSplit (sep : Char) : List Char → List (List Char)
  | [] => [[]]
  | c :: cs =>
    if c = sep then [] :: goSplit sep cs
    else
      match goSplit sep cs with
      | [] => [[c]]
      | h :: t => (c :: h) :: t

/-- The predicate "is not the separator", used to speak about the text
before or after the first separator occurrence. -/
def notSep (sep : Char) : Char → Bool := fun c => c ≠ sep

/-- Models the host/port computation at the top of
openRemotePortForwardSession: host starts as the whole endpoint with
port "3306"; when the endpoint contains a colon, host and port become
elements 0 and 1 of strings.Split(endpoint, ":"). -/
def parseDBEndpoint (dbEndpoint : List Char) : List Char × List Char :=
  if ':' ∈ dbEndpoint then
    let split := goSplit ':' dbEndpoint
    (split.headD [], (split.drop 1).headD [])
  else (dbEndpoint, ['3', '3', '0', '6'])

lemma notSep_self (sep : Char) : notSep sep sep = false := by simp [notSep]

lemma notSep_of_ne (sep c : Char) (h : ¬c = sep) : notSep sep c = true := by
  simp [notSep, h]

lemma goSplit_ne_nil (sep : Char) (l : List Char) : goSplit sep l ≠ [] := by
  induction l with
  | nil => simp [goSplit]
  | cons c cs ih =>
    by_cases h : c = sep
    · simp [goSplit, h]
    · simp only [goSplit, h, if_false]
      cases hg : goSplit sep cs with
      | nil => simp
      | cons a t => simp

lemma goSplit_headD (sep : Char) (l : List Char) :
    (goSplit sep l).headD [] = l.takeWhile (notSep sep) := by
  induction l with
  | nil => rfl
  | cons c cs ih =>
    by_cases h : c = sep
    · subst h
      rw [List.takeWhile_cons, notSep_self]
      simp [goSplit]
    · rw [List.takeWhile_cons, notSep_of_ne sep c h]
      simp only [if_true]
      simp only [goSplit, h, if_false]
      cases hg : goSplit sep cs with
      | nil => exact absurd hg (goSplit_ne_nil sep cs)
      | cons a t =>
        rw [hg] at ih
        simp only [List.headD] at ih ⊢
        rw [ih]

lemma goSplit_second (sep : Char) (l : List Char) (h : sep ∈ l) :
    ((goSplit sep l).drop 1).headD [] =
      ((l.dropWhile (notSep sep)).tail).takeWhile (notSep sep) := by
  induction l with
  | nil => simp at h
  | cons c cs ih =>
    by_cases hc : c = sep
    · subst hc
      rw [List.dropWhile_cons, notSep_self]
      simp only [Bool.false_eq_true, if_false, List.tail_cons]
      simp only [goSplit, if_pos rfl, List.drop_succ_cons, List.drop_zero]
      exact goSplit_headD c cs
    · have hmem2 : sep ∈ cs := by
        rcases List.mem_cons.mp h with h1 | h1
        · exact absurd h1.symm hc
        · exact h1
      rw [List.dropWhile_cons, notSep_of_ne sep c hc]
      simp only [if_true]
      simp only [goSplit, hc, if_false]
      cases hg : goSplit sep cs with
      | nil => exact absurd hg (goSplit_ne_nil sep cs)
      | cons a t =>
        have ih2 := ih hmem2
        rw [hg] at ih2
        simp only [List.drop_succ_cons, List.drop_zero] at ih2 ⊢
        exact ih2

/-- One iteration's outcome at the accept site of the forwarding loop:
a timeout-classified accept error, any other accept error, or an
accepted local connection together with whether the subsequent
sshClient.Dial to the database endpoint succeeds. -/
inductive AcceptEvent
  | timeout
  | fatalErr
  | conn (dialOk : Bool)
deriving DecidableEq, Repr

/-- The observable outcome of running the accept loop over a sequence
of accept outcomes: how many accepted connections had their two copy
goroutines started, the diagnostic lines written to stderr, and the
events never examined because the loop goroutine returned (which closes
the listener via the deferred Close). -/
structure LoopTrace where
  served : Nat
  logs : List String
  unprocessed : List AcceptEvent
deriving DecidableEq, Repr

/-- Models the accept loop body of portForward (and PortForward): a
timeout-classified accept error continues the loop; any other accept
error logs and returns; an accepted connection whose remote dial fails
logs and returns; otherwise the two copy goroutines are started and the
loop continues. An exhausted event list leaves the loop blocked in
Accept with nothing served beyond what was counted. -/
def acceptLoop : List AcceptEvent → LoopTrace
  | [] => ⟨0, [], []⟩
  | .timeout :: es => acceptLoop es
  | .fatalErr :: es => ⟨0, [("accept failed")], es⟩
  | .conn false :: es => ⟨0, [("dial failed")], es⟩
  | .conn true :: es =>
    let t := acceptLoop es
    ⟨t.served + 1, t.logs, t.unprocessed⟩

/-- The two directional copy goroutines of one forwarded connection. -/
inductive CopyDirection
  | localToRemote
  | remoteToLocal
deriving DecidableEq, Repr

/-- The open/closed state of the two ends of one forwarded connection. -/
structure ConnEnds where
  localOpen : Bool
  remoteOpen : Bool
deriving DecidableEq, Repr

/-- Models what each copy goroutine of portForward closes when its
io.Copy returns: the goroutine copying local-to-remote defers closing
both the local connection and the remote channel; the goroutine copying
remote-to-local defers no close at all. -/
def copyTaskEnds : CopyDirection → ConnEnds → ConnEnds
  | .localToRemote, _ => ⟨false, false⟩
  | .remoteToLocal, s => s

/-- Result of one host-key verification by the callback. -/
inductive HKResult (K : Type)
  | ok
  | mismatch (want : List K)
  | writeError
deriving DecidableEq, Repr

/-- The keys recorded for an address in the known-hosts trust file,
viewed as a list of address/key lines. -/
def recordedKeys {K : Type} [DecidableEq K] (store : List (String × K))
    (addr : String) : List K :=
  (store.filter (fun e => e.1 = addr)).map Prod.snd

/-- Outcome of the inner knownhosts callback. -/
inductive KnownhostsOutcome (K : Type)
  | accepted
  | keyError (want : List K)
deriving DecidableEq, Repr

/-- Models the callback produced by knownhosts.New: nil when the
presented key is recorded for the address, otherwise a KeyError whose
Want field holds the keys recorded for the address (empty for an
unknown host). -/
def knownhostsCheck {K : Type} [DecidableEq K] (store : List (String × K))
    (addr : String) (key : K) : KnownhostsOutcome K :=
  let want := recordedKeys store addr
  if key ∈ want then .accepted else .keyError want

/-- Models the pipe-address substitution at the top of the callback in
createHostKeyCallback: a remote address printing as "pipe" is replaced
by one printing as the ssh hostname, so trust stays keyed by the
logical remote identity. -/
def effectiveAddr (hostname remoteAddr : String) : String :=
  if remoteAddr = "pipe" then hostname else remoteAddr

/-- Models the closure returned by createHostKeyCallback: run the inner
knownhosts check against the substituted remote address; a KeyError
with non-empty Want is returned as a mismatch; an unknown host is
appended as a new line for that address (failing only when the trust
file cannot be opened for append); a recorded key verifies silently.
Returns the verification result paired with the trust file after the
call. -/
def hostKeyCallback {K : Type} [DecidableEq K] (store : List (String × K))
    (writable : Bool) (hostname remoteAddr : String) (key : K) :
    HKResult K × List (String × K) :=
  let addr := effectiveAddr hostname remoteAddr
  match knownhostsCheck store addr key with
  | .accepted => (.ok, store)
  | .keyError want =>
    if want.isEmpty then
      if writable then (.ok, store ++ [(addr, key)])
      else (.writeError, store)
    else (.mismatch want, store)

/-- The mysql package's sessionConfig, carrying every field its
validateConfig inspects. -/
structure MysqlSessionConfig where
  instanceID : String
  profile : String
  region : String
  sshUser : String
  keyPath : String
  localPort : Nat
  dbEndpoint : String
deriving DecidableEq, Repr

/-- Models validateConfig of the mysql package: one cause appended per
violation, in source order, with the aggregate returned when any cause
was collected. -/
def validateConfig (env : Env) (c : MysqlSessionConfig) : Option Err :=
  let e1 :=
    if c.instanceID = "" then appendCause none ("not set ec2_instance_id") else none
  let e2 := if c.dbEndpoint = "" then appendCause e1 ("not set rds_endpoint") else e1
  let e3 := if c.sshUser = "" then appendCause e2 ("not set ssh_user") else e2
  let e4 := if c.keyPath = "" then appendCause e3 ("not set ssh_key_path") else e3
  let e5 :=
    if !env.fileExists c.keyPath then
      appendCause e4 (("ssh_key_path: ") ++ c.keyPath ++ (" is not exist"))
    else e4
  let e6 := if c.region = "" then appendCause e5 ("not set region") else e5
  e6

/-- The results sessionConfig.connect (port_forward package) can
observe from its steps in carrier (SSH over the broker channel) mode;
none models a nil Go error. closeSessionErr is what each closeSession
call (TerminateSession) returns. -/
structure CarrierSteps where
  startSessionErr : Option Err
  pluginErr : Option Err
  sshConfigErr : Option Err
  sshClientErr : Option Err
  portForwardErr : Option Err
  closeSessionErr : Option Err
  clientCloseErr : Option Err
  killProxyErr : Option Err
deriving DecidableEq, Repr

/-- The results sessionConfig.connect can observe in remote-forward
mode: the StartSession call, the building of the plugin command, and
proxyCmd.Start. -/
structure RemoteSteps where
  startSessionErr : Option Err
  pluginErr : Option Err
  procStartErr : Option Err
deriving DecidableEq, Repr

/-- Models openSession / openRemotePortForwardSession: a StartSession
failure returns it with no terminate attempted; a failure building the
plugin command terminates the fresh session (the deferred close) before
returning; otherwise the command and the close function are handed
back. The Nat counts TerminateSession attempts made inside the call. -/
def openSessionM (startSessionErr pluginErr : Option Err) : Except Err Unit × Nat :=
  match startSessionErr with
  | some e => (.error e, 0)
  | none =>
    match pluginErr with
    | some e => (.error e, 1)
    | none => (.ok (), 0)

/-- Models the carrier branch of sessionConfig.connect, returning the
error handed to the caller and the number of closeSession
(TerminateSession) attempts. On a CreateSSHClientConfig or
CreateSSHClientWithProxyCommand failure the source runs
errors = multierror.Append(err) with the close error as its only
argument, which REPLACES the accumulated error, and then calls
closeSession a second time; on a PortForward failure each failing
release likewise replaces the accumulator. -/
def connectCarrier (s : CarrierSteps) : Option Err × Nat :=
  match openSessionM s.startSessionErr s.pluginErr with
  | (.error e, n) => (some e, n)
  | (.ok _, n) =>
    match s.sshConfigErr with
    | some err =>
      let errors := match s.closeSessionErr with
        | some ce => ce
        | none => err
      (some errors, n + 2)
    | none =>
      match s.sshClientErr with
      | some err =>
        let errors := match s.closeSessionErr with
          | some ce => ce
          | none => err
        (some errors, n + 2)
      | none =>
        match s.portForwardErr with
        | some err =>
          let e1 := match s.clientCloseErr with
            | some ce => ce
            | none => err
          let e2 := match s.killProxyErr with
            | some ke => ke
            | none => e1
          let e3 := match s.closeSessionErr with
            | some se => se
            | none => e2
          (some e3, n + 1)
        | none => (none, n)

/-- Models the remote-forward branch of sessionConfig.connect: open the
remote-port-forward session, then start the plugin process; when the
start fails the error is returned directly - the assigned closeSession
is never invoked on this path. The Nat counts TerminateSession
attempts. -/
def connectRemote (s : RemoteSteps) : Option Err × Nat :=
  match openSessionM s.startSessionErr s.pluginErr with
  | (.error e, n) => (some e, n)
  | (.ok _, n) =>
    match s.procStartErr with
    | some e => (some e, n)
    | none => (none, n)

lemma pfValidate_eq_none (env : Env) (c : PortFowardConfig) :
    pfValidate env c = none ↔ (c.sshUser ≠ "" ∧ env.fileExists c.keyPath = true) := by
  unfold pfValidate appendCause
  by_cases h1 : c.sshUser = "" <;> by_cases h2 : env.fileExists c.keyPath <;>
    simp [h1, h2]

lemma append_suffix_ne_empty (s t : String) (ht : t ≠ "") : s ++ t ≠ "" := by
  intro h
  apply ht
  have hd := congrArg String.data h
  rw [String.data_append] at hd
  rcases List.append_eq_nil.mp hd with ⟨_, h2⟩
  apply String.ext
  simpa using h2

end TFMysql

namespace TFMysql

/-- C1: for a configuration with the broker block present, resolution
selects brokerRemoteForward (useRemotePortForward = true) exactly when
the use_remote_port_forward flag carries a value, and brokerSSHCarrier
(useRemotePortForward = false, with ssh user and key path populated)
when the flag is absent; with only the direct-SSH block present the
resolved strategy is directSSH. The hypothesis hstat records that
os.Stat of the empty path always fails. -/
theorem claimC1 (env : Env) (raw : RawConfig) (lp : Nat)
    (out : Option SessionConf × Option PortFowardConfig)
    (hstat : env.fileExists "" = false)
    (hok : resolveConfig env raw lp = .ok out) :
    (∀ b, raw.broker = some b →
      ((b.useRemotePortForward.isSome →
          resolvedStrategy out = some Strategy.brokerRemoteForward ∧
          ∃ pf, out.2 = some pf ∧ pf.useRemotePortForward = true) ∧
       (b.useRemotePortForward = none →
          resolvedStrategy out = some Strategy.brokerSSHCarrier ∧
          ∃ pf, out.2 = some pf ∧ pf.useRemotePortForward = false ∧
            pf.sshUser ≠ "" ∧ pf.keyPath ≠ ""))) ∧
    (raw.broker = none → ∀ d, raw.direct = some d →
      resolvedStrategy out = some Strategy.directSSH) := by
  constructor
  · intro b hb
    obtain ⟨id, rds, flag, su, sk, prof, reg⟩ := b
    have hne : id ++ ":22" ≠ "" := append_suffix_ne_empty id ":22" (by decide)
    unfold resolveConfig at hok
    rw [hb] at hok
    by_cases hid : id = ""
    · cases hsess : env.awsSessionOk <;>
        simp [ParseSessionConfig, sessionConfValidate, appendCause, hid, hsess,
          bind, Except.bind] at hok
    · cases hsess : env.awsSessionOk
      · simp [ParseSessionConfig, sessionConfValidate, appendCause, hid, hsess,
          bind, Except.bind] at hok
      · simp only [ParseSessionConfig, sessionConfValidate, appendCause, hid, hsess,
          bind, Except.bind, if_false, if_true] at hok
        cases flag with
        | none =>
          simp [ParsePFConfig, PFMap.isEmpty, mapGetNonempty, bind, Except.bind,
            pure, Except.pure, Functor.map, Except.map, hne] at hok
          split at hok
          · simp at hok
          · rename_i hpv
            simp only [Except.ok.injEq] at hok
            split at hpv
            · simp at hpv
            · rename_i hpv2
              simp only [Except.ok.injEq] at hpv
              subst hpv
              subst hok
              refine ⟨fun h => by simp at h, fun _ => ⟨rfl, _, rfl, rfl, ?_, ?_⟩⟩
              · exact ((pfValidate_eq_none env _).mp hpv2).1
              · intro hk
                have h2 := ((pfValidate_eq_none env _).mp hpv2).2
                rw [hk, hstat] at h2
                exact Bool.false_ne_true h2
        | some v =>
          cases v <;>
            simp [ParsePFConfig, PFMap.isEmpty, mapGetNonempty, bind, Except.bind,
              pure, Except.pure, Functor.map, Except.map, hne] at hok <;>
            subst hok <;>
            exact ⟨fun _ => ⟨rfl, _, rfl, rfl⟩, fun h => by simp at h⟩
  · intro hb d hd
    obtain ⟨rh, dbe, su2, sk2⟩ := d
    unfold resolveConfig at hok
    rw [hb, hd] at hok
    simp [ParseSessionConfig, ParsePFConfigMap, ParsePFConfig, PFMap.isEmpty,
      mapGetNonempty, bind, Except.bind, pure, Except.pure, Functor.map,
      Except.map] at hok
    split at hok
    · simp at hok
    · rename_i hpv
      simp only [Except.ok.injEq] at hok
      split at hpv
      · simp at hpv
      · simp only [Except.ok.injEq] at hpv
        subst hpv
        subst hok
        rfl

/-- C1 witness: a concrete broker-block configuration with the flag
absent resolves to the SSH-carrier strategy. -/
theorem claimC1_witness :
    resolvedStrategy (some ⟨"i-1", true⟩,
      some ⟨"alice", "/home/alice/.ssh/id_rsa", 3307, "i-1:22", "db:3306", false⟩) =
      some Strategy.brokerSSHCarrier := by
  have h := (claimC1 ⟨"alice", "/home/alice", fun s => s != "", true⟩
      ⟨some ⟨"i-1", "db:3306", none, "", "", "", ""⟩, none⟩ 3307
      (some ⟨"i-1", true⟩,
        some ⟨"alice", "/home/alice/.ssh/id_rsa", 3307, "i-1:22", "db:3306", false⟩)
      (by decide) (by rfl)).1 _ rfl
  exact (h.2 rfl).1

/-- C9: the listener binds over TCP at the wildcard address ":port",
whose host segment (the text before the colon) is empty, so it is not
the loopback address. -/
theorem claimC9 (p : Nat) :
    listenAddress p = ":" ++ toString p ∧
    (listenAddress p).data.head? = some ':' ∧
    (listenAddress p).data.takeWhile (notSep ':') = [] ∧
    listenNetwork = "tcp" := by
  refine ⟨rfl, ?_, ?_, rfl⟩
  · show ((":" : String) ++ toString p).data.head? = some ':'
    rw [String.data_append]
    rfl
  · show ((":" : String) ++ toString p).data.takeWhile (notSep ':') = []
    rw [String.data_append]
    have h1 : (":" : String).data = [':'] := rfl
    rw [h1]
    show List.takeWhile (notSep ':') (':' :: (toString p).data) = []
    rw [List.takeWhile_cons, notSep_self]
    simp

/-- C10: in remote-port-forward mode, an endpoint without a colon is the
host as a whole with port defaulting to "3306"; with a colon, the host
is the text before the first colon and the port the text between the
first and second colon, further segments being discarded. -/
theorem claimC10 (s : List Char) :
    (':' ∉ s → parseDBEndpoint s = (s, ['3', '3', '0', '6'])) ∧
    (':' ∈ s → parseDBEndpoint s =
      (s.takeWhile (notSep ':'),
       ((s.dropWhile (notSep ':')).tail).takeWhile (notSep ':'))) := by
  constructor
  · intro h
    simp [parseDBEndpoint, h]
  · intro h
    simp only [parseDBEndpoint, if_pos h]
    rw [goSplit_headD, goSplit_second _ _ h]

/-- C10 witness: the endpoint a:b:c splits into host a and port b, the
trailing segment c being discarded. -/
theorem claimC10_witness :
    parseDBEndpoint ['a', ':', 'b', ':', 'c'] = (['a'], ['b']) := by
  have h := (claimC10 ['a', ':', 'b', ':', 'c']).2 (by decide)
  rw [h]
  rfl

/-- C2 counterexample: after a connection whose remote dial fails, the
loop returns instead of continuing: a subsequent connection with a
successful dial is never examined and nothing is served, refuting the
claim that the accept loop keeps accepting and serving. -/
theorem claimC2_counterexample :
    (acceptLoop [.conn false, .conn true]).served = 0 ∧
    (acceptLoop [.conn false, .conn true]).logs = [("dial failed")] ∧
    (acceptLoop [.conn false, .conn true]).unprocessed = [.conn true] :=
  ⟨rfl, rfl, rfl⟩

/-- C2 amended: a per-connection channel-open (dial) failure emits one
diagnostic line and terminates the whole accept loop (and with it the
listener), serving nothing further: every later event stays
unprocessed. -/
theorem claimC2_amended (es : List AcceptEvent) :
    acceptLoop (.conn false :: es) =
      { served := 0, logs := [("dial failed")], unprocessed := es } := rfl

/-- C5 counterexample: when the remote-to-local copy goroutine ends
first, neither end of the pair is closed by it, refuting the claim that
either direction ending closes both the local connection and the remote
channel. -/
theorem claimC5_counterexample :
    copyTaskEnds .remoteToLocal ⟨true, true⟩ ≠ ⟨false, false⟩ := by decide

/-- C5 amended: only the local-to-remote copy goroutine closes both
ends of the pair when it ends; the remote-to-local goroutine ending
closes nothing, leaving both ends as they were. -/
theorem claimC5_amended (s : ConnEnds) :
    copyTaskEnds .localToRemote s = ⟨false, false⟩ ∧
    copyTaskEnds .remoteToLocal s = s := ⟨rfl, rfl⟩

/-- C6: when the trust file already records keys for the effective
address and the presented key is not among them, the callback returns
the mismatch carrying the recorded keys and leaves the trust file
unchanged: nothing is appended and no entry is overwritten. -/
theorem claimC6 {K : Type} [DecidableEq K] (store : List (String × K))
    (writable : Bool) (hostname remoteAddr : String) (key : K)
    (hrec : recordedKeys store (effectiveAddr hostname remoteAddr) ≠ [])
    (hmem : key ∉ recordedKeys store (effectiveAddr hostname remoteAddr)) :
    hostKeyCallback store writable hostname remoteAddr key =
      (.mismatch (recordedKeys store (effectiveAddr hostname remoteAddr)), store) := by
  unfold hostKeyCallback knownhostsCheck
  simp [hmem, List.isEmpty_iff, hrec]

/-- C6 witness: a host recorded with key 1 presenting key 2 yields the
mismatch and an unchanged store. -/
theorem claimC6_witness :
    hostKeyCallback [(("host1"), 1)] true ("host1") ("host1") 2 =
      (.mismatch (recordedKeys [(("host1"), 1)] (effectiveAddr ("host1") ("host1"))),
        [(("host1"), 1)]) :=
  claimC6 [(("host1"), 1)] true ("host1") ("host1") 2 (by decide) (by decide)

lemma recordedKeys_append {K : Type} [DecidableEq K] (s t : List (String × K))
    (a : String) : recordedKeys (s ++ t) a = recordedKeys s a ++ recordedKeys t a := by
  simp [recordedKeys, List.filter_append]

/-- C8: trust-on-first-use is idempotent: for a hostname the trust file
does not yet record, the first verification succeeds and appends
exactly that one entry, and the second verification of the same pair
succeeds without touching the file again. -/
theorem claimC8 {K : Type} [DecidableEq K] (store : List (String × K))
    (hostname remoteAddr : String) (key : K)
    (hunknown : recordedKeys store (effectiveAddr hostname remoteAddr) = []) :
    (hostKeyCallback store true hostname remoteAddr key).1 = .ok ∧
    (hostKeyCallback store true hostname remoteAddr key).2 =
      store ++ [(effectiveAddr hostname remoteAddr, key)] ∧
    (hostKeyCallback (hostKeyCallback store true hostname remoteAddr key).2
        true hostname remoteAddr key) =
      (.ok, (hostKeyCallback store true hostname remoteAddr key).2) := by
  have h1 : hostKeyCallback store true hostname remoteAddr key =
      (.ok, store ++ [(effectiveAddr hostname remoteAddr, key)]) := by
    unfold hostKeyCallback knownhostsCheck
    simp [hunknown]
  have h2 : recordedKeys (store ++ [(effectiveAddr hostname remoteAddr, key)])
      (effectiveAddr hostname remoteAddr) = [key] := by
    rw [recordedKeys_append, hunknown]
    simp [recordedKeys]
  refine ⟨by rw [h1], by rw [h1], ?_⟩
  rw [h1]
  unfold hostKeyCallback knownhostsCheck
  simp [h2]

/-- C8 witness: an empty trust file, a hostname reached over the pipe
transport, and one key: the first verification appends the single
entry, the second verifies against it without writing. -/
theorem claimC8_witness :
    (hostKeyCallback ([] : List (String × Nat)) true ("h") ("pipe") 3).1 = .ok ∧
    (hostKeyCallback ([] : List (String × Nat)) true ("h") ("pipe") 3).2 =
      [] ++ [(effectiveAddr ("h") ("pipe"), 3)] ∧
    (hostKeyCallback (hostKeyCallback ([] : List (String × Nat)) true ("h") ("pipe") 3).2
        true ("h") ("pipe") 3) =
      (.ok, (hostKeyCallback ([] : List (String × Nat)) true ("h") ("pipe") 3).2) :=
  claimC8 [] ("h") ("pipe") 3 (by decide)

/-- C7: validateConfig aggregates all violations: with a key file that
does not exist on disk and an unset region, the returned error lists
both causes. -/
theorem claimC7 (env : Env) (c : MysqlSessionConfig)
    (hkey : env.fileExists c.keyPath = false) (hreg : c.region = "") :
    ∃ errs, validateConfig env c = some errs ∧
      (("ssh_key_path: ") ++ c.keyPath ++ (" is not exist")) ∈ errs ∧
      ("not set region") ∈ errs := by
  simp [validateConfig, appendCause, hkey, hreg]

/-- C7 witness: a concrete configuration missing both the key file and
the region yields an error mentioning both. -/
theorem claimC7_witness :
    ∃ errs,
      validateConfig ⟨"u", "", fun _ => false, true⟩
        ⟨"i-1", "", "", "u", "/k", 3307, "db:3306"⟩ = some errs ∧
      (("ssh_key_path: ") ++ "/k" ++ (" is not exist")) ∈ errs ∧
      ("not set region") ∈ errs :=
  claimC7 ⟨"u", "", fun _ => false, true⟩
    ⟨"i-1", "", "", "u", "/k", 3307, "db:3306"⟩ rfl rfl

/-- C3: the unwind drops the original cause: with CreateSSHClientConfig
failing and the closeSession (TerminateSession) release also failing,
the error handed to the caller is the TerminateSession failure alone,
because errors = multierror.Append(err) is called with the release
error as its only argument and so replaces the accumulator instead of
appending to it; the triggering cause is silently discarded,
contradicting the claim that both are returned. -/
theorem claimC3_bug :
    connectCarrier
      { startSessionErr := none, pluginErr := none,
        sshConfigErr := some [("read ssh key failed")],
        sshClientErr := none, portForwardErr := none,
        closeSessionErr := some [("terminate session failed")],
        clientCloseErr := none, killProxyErr := none } =
      (some [("terminate session failed")], 2) ∧
    ("read ssh key failed") ∉ ([("terminate session failed")] : List String) :=
  ⟨rfl, by decide⟩

/-- C4: on the remote-port-forward path, when StartSession succeeds and
proxyCmd.Start fails, the error is returned with zero TerminateSession
attempts: the assigned closeSession is never invoked on this path and
the broker session leaks, contradicting the claim that termination is
attempted before the error is surfaced. -/
theorem claimC4_bug :
    connectRemote
      { startSessionErr := none, pluginErr := none,
        procStartErr := some [("fork failed")] } =
      (some [("fork failed")], 0) := rfl

end TFMysql
